import Mathlib

/-!
# Flood monitoring station (Tarefa6-F2.c)

A shallow embedding of the six FreeRTOS tasks of `Tarefa6-F2.c` and of the three
length-one queues they share, followed by the properties of the classification
rule, of the queues and of the task iterations.

* Machine integers are natural numbers; the two `uint16_t` fields of a reading are
  stored modulo `2 ^ 16`.
* A task iteration is a function on the system state returning `none` when the
  task is parked inside a queue read.
* Driver and kernel calls issued by a task are appended, tagged with the task,
  to the trace of the system state.
-/

namespace Tarefa6

/-! ## Constants and data (lines 29-53) -/

/-- GPIO of the red PWM channel (line 29). -/
def LED_R : Nat := 13
/-- GPIO of the green PWM channel (line 30). -/
def LED_G : Nat := 11
/-- GPIO of the blue PWM channel (line 31). -/
def LED_B : Nat := 12

/-- Water level alert threshold in ADC counts (line 45). -/
def LEVEL_ALERT_TH : Nat := 2867
/-- Rain alert threshold in ADC counts (line 46). -/
def RAIN_ALERT_TH : Nat := 3276

/-- The enumeration of line 48. -/
inductive SystemStatus where
  | NORMAL
  | ALERTA
  deriving DecidableEq, Repr, Inhabited

/-- The structure of lines 50-53; both fields are `uint16_t`. -/
structure SensorData where
  rain : Nat
  level : Nat
  deriving DecidableEq, Repr, Inhabited

/-- The conditional expression of lines 153-154 of `vTaskProcess`. -/
def classify (sd : SensorData) : SystemStatus :=
  if sd.level ≥ LEVEL_ALERT_TH ∨ sd.rain ≥ RAIN_ALERT_TH then SystemStatus.ALERTA
  else SystemStatus.NORMAL

/-! ## The queue primitives -/

/-- Modelled from the spec: the FreeRTOS queue implementation (`queue.c`) is not among
the sources. A queue is its capacity and the values resident in it, oldest first;
the number of waiting messages is the length of `items`. -/
structure Queue (α : Type) where
  uxLength : Nat
  items : List α
  deriving DecidableEq, Repr

/-- Modelled from the spec: the "wait forever" timeout, the largest 32-bit tick count. -/
def portMAX_DELAY : Nat := 0xFFFFFFFF

/-- Modelled from the spec: outcome of a blocking read. `received v q` delivers `v`
and leaves the queue as `q`; `parked` is a caller that stays suspended on an empty
queue; `expired` is a read that gave up after a finite timeout. -/
inductive QueueRead (α : Type) where
  | received (v : α) (q : Queue α)
  | parked
  | expired
  deriving DecidableEq, Repr

/-- Modelled from the spec: `xQueueCreate(n, size)` gives an empty queue of capacity `n`. -/
def xQueueCreate (α : Type) (n : Nat) : Queue α := ⟨n, []⟩

/-- Modelled from the spec: `xQueueOverwrite` ("publish") never blocks and replaces the
value at the head of the queue, if there is one, by the new value. -/
def xQueueOverwrite {α : Type} (q : Queue α) (v : α) : Queue α :=
  { q with items := v :: q.items.tail }

/-- Modelled from the spec: `xQueueReceive` ("receive_consuming") removes and returns the
head value; on an empty queue the caller waits, forever when the timeout is
`portMAX_DELAY`. -/
def xQueueReceive {α : Type} (q : Queue α) (xTicksToWait : Nat) : QueueRead α :=
  match q.items with
  | v :: rest => QueueRead.received v { q with items := rest }
  | [] => if xTicksToWait = portMAX_DELAY then QueueRead.parked else QueueRead.expired

/-- Modelled from the spec: `xQueuePeek` ("peek") returns the head value and leaves it
in the queue; on an empty queue the caller waits, forever when the timeout is
`portMAX_DELAY`. -/
def xQueuePeek {α : Type} (q : Queue α) (xTicksToWait : Nat) : QueueRead α :=
  match q.items with
  | v :: _ => QueueRead.received v q
  | [] => if xTicksToWait = portMAX_DELAY then QueueRead.parked else QueueRead.expired

/-- A queue as `main` creates them: capacity one and at most one resident value. -/
def Queue.Valid {α : Type} (q : Queue α) : Prop :=
  q.uxLength = 1 ∧ q.items.length ≤ q.uxLength

instance {α : Type} (q : Queue α) : Decidable q.Valid := by
  unfold Queue.Valid; infer_instance

/-- The values returned by `n` successive `xQueuePeek` calls with `portMAX_DELAY`,
stopping at the first call that does not return, and the queue left behind. -/
def peekMany {α : Type} (q : Queue α) : Nat → List α × Queue α
  | 0 => ([], q)
  | n + 1 =>
    match xQueuePeek q portMAX_DELAY with
    | QueueRead.received v q1 => ((v :: (peekMany q1 n).1), (peekMany q1 n).2)
    | QueueRead.parked => ([], q)
    | QueueRead.expired => ([], q)

/-! ## Driver and kernel calls -/

/-- The function `main` and the six tasks, by the names given to `xTaskCreate`
(lines 122-127). -/
inductive Who where
  | main
  | Sensor
  | Process
  | RGB
  | Buzz
  | Matrix
  | Disp
  deriving DecidableEq, Repr

/-- The driver and kernel calls that the tasks issue. The pin arguments `BUZZER_PIN`
and `MATRIX_PIN` and the display handle are constants and are left out. The headers
`lib/matrixws.h` and `lib/buzzer.h` are not among the sources: the loop of line 208
over all `NUM_LEDS` pixels is recorded as one `fill_all`, and `cores(getIndex(x, y), ..)`
is recorded as `cores_at x y ..`. Delays carry their argument in milliseconds. -/
inductive Call where
  | adc_select_input (ch : Nat)
  | pwm_set_gpio_level (gpio level : Nat)
  | buzzer_init (freq : Nat)
  | buzzer_set_freq (freq : Nat)
  | buzzer_stop
  | controle
  | desliga
  | fill_all (r g b : Nat)
  | cores_at (x y r g b : Nat)
  | bf
  | ssd1306_fill (value : Bool)
  | ssd1306_draw_string (text : String) (x y : Nat)
  | ssd1306_send_data
  | sleep_ms (ms : Nat)
  | vTaskDelay (ms : Nat)
  deriving DecidableEq, Repr

/-- A timed wait: either of the two delay calls. -/
def Call.isWait : Call → Bool
  | Call.sleep_ms _ => true
  | Call.vTaskDelay _ => true
  | _ => false

/-- The text that `snprintf` produces for the conversion `%4u`: decimal digits,
right-justified with blanks in a field of width four. -/
def fmt4u (n : Nat) : String :=
  String.mk (List.replicate (4 - (Nat.repr n).length) ' ') ++ Nat.repr n

/-- One step of reading a decimal number off a text: a digit extends the number, any
other character is skipped. -/
def readDigit (acc : Nat) (c : Char) : Nat :=
  if c.isDigit then acc * 10 + (c.toNat - 48) else acc

/-- The number that a text shows: its decimal digits read from left to right. -/
def shownNumber (t : String) : Nat := t.data.foldl readDigit 0

/-! ## Task bodies: the calls of one iteration after the queue reads -/

/-- Lines 138-143 of `vTaskSensorRead`, without the two `adc_read` results, which are
inputs, and without the queue write. -/
def vTaskSensorRead_body : List Call :=
  [Call.adc_select_input 0, Call.adc_select_input 1, Call.vTaskDelay 200]

/-- Lines 166-175 of `vTaskLedRGB`. -/
def vTaskLedRGB_body (st : SystemStatus) : List Call :=
  if st = SystemStatus.ALERTA then
    [Call.pwm_set_gpio_level LED_R 255, Call.pwm_set_gpio_level LED_G 0,
     Call.pwm_set_gpio_level LED_B 0, Call.vTaskDelay 200]
  else
    [Call.pwm_set_gpio_level LED_R 0, Call.pwm_set_gpio_level LED_G 255,
     Call.pwm_set_gpio_level LED_B 0, Call.vTaskDelay 200]

/-- Lines 184-193 of `vTaskBuzzer`. -/
def vTaskBuzzer_body (st : SystemStatus) : List Call :=
  if st = SystemStatus.ALERTA then
    [Call.buzzer_init 1000, Call.buzzer_set_freq 1000, Call.sleep_ms 200,
     Call.buzzer_stop, Call.vTaskDelay 500]
  else
    [Call.buzzer_stop, Call.vTaskDelay 1000]

/-- The table `tri` of lines 200-202. -/
def tri : List (Nat × Nat) :=
  [(1, 2), (2, 1), (2, 2), (2, 3), (3, 0), (3, 1), (3, 2), (3, 3), (3, 4)]

/-- Lines 207-217 of `vTaskMatrix`. -/
def vTaskMatrix_body (st : SystemStatus) : List Call :=
  (if st = SystemStatus.ALERTA then
    Call.fill_all 255 0 0 :: tri.map (fun p => Call.cores_at p.1 p.2 255 255 0)
  else
    [Call.desliga]) ++ [Call.bf, Call.vTaskDelay 300]

/-- Lines 233-245 of `vTaskDisplay`. -/
def vTaskDisplay_body (sd : SensorData) (st : SystemStatus) : List Call :=
  [Call.ssd1306_fill false,
   Call.ssd1306_draw_string ("Chuva: " ++ fmt4u sd.rain) 0 0,
   Call.ssd1306_draw_string ("Nivel: " ++ fmt4u sd.level) 0 10,
   (if st = SystemStatus.ALERTA then Call.ssd1306_draw_string "!!! ALERTA !!!" 0 50
    else Call.ssd1306_draw_string "   NORMAL    " 0 50),
   Call.ssd1306_send_data]

/-! ## System state -/

/-- The local variables that survive from one iteration to the next and are read
after a queue read whose result the task does not test: `st` in tasks 3 to 6 and
`sd` in task 6. -/
structure Locals where
  stRGB : SystemStatus
  stBuzz : SystemStatus
  stMatrix : SystemStatus
  stDisp : SystemStatus
  sdDisp : SensorData
  deriving DecidableEq, Repr, Inhabited

/-- Where `vTaskDisplay` stands in its loop: before the `xQueueReceive` of line 231 or
before the `xQueuePeek` of line 232. -/
inductive DispPc where
  | atReceive
  | atPeek
  deriving DecidableEq, Repr

/-- The three queues of lines 56-58, the task locals, the position of the display
task and all calls issued so far. -/
structure Sys where
  qSensor : Queue SensorData
  qDisplay : Queue SensorData
  qStatus : Queue SystemStatus
  loc : Locals
  dispPc : DispPc
  trace : List (Who × Call)
  deriving DecidableEq, Repr

/-- Append the calls `cs`, issued by `w`, to the trace. -/
def emit (w : Who) (cs : List Call) (s : Sys) : Sys :=
  { s with trace := s.trace ++ cs.map (fun c => (w, c)) }

/-- The output calls of `main` at lines 103-114 (initial PWM levels, buzzer
stopped, matrix off). -/
def mainCalls : List Call :=
  [Call.pwm_set_gpio_level LED_R 0, Call.pwm_set_gpio_level LED_G 255,
   Call.pwm_set_gpio_level LED_B 0, Call.buzzer_init 2000, Call.buzzer_stop,
   Call.controle, Call.desliga]

/-- The state in which `vTaskStartScheduler` is called (lines 103-129): three empty
queues of length one and the start-up calls in the trace. The task locals are not
initialised by the source; `junk` is what they happen to hold. The bring-up of the
display before the loop of `vTaskDisplay` (lines 226-227) draws nothing and is
left out, so that task starts at its `xQueueReceive`. -/
def boot (junk : Locals) : Sys :=
  { qSensor := xQueueCreate SensorData 1
    qDisplay := xQueueCreate SensorData 1
    qStatus := xQueueCreate SystemStatus 1
    loc := junk
    dispPc := DispPc.atReceive
    trace := mainCalls.map (fun c => (Who.main, c)) }

/-- The level last written to a PWM pin, if any. -/
def pwmLevel (gpio : Nat) (tr : List (Who × Call)) : Option Nat :=
  tr.foldl (fun acc e =>
    match e.2 with
    | Call.pwm_set_gpio_level g l => if g = gpio then some l else acc
    | _ => acc) none

/-- The levels last written to the red, green and blue pins. -/
def rgbOutput (tr : List (Who × Call)) : Option Nat × Option Nat × Option Nat :=
  (pwmLevel LED_R tr, pwmLevel LED_G tr, pwmLevel LED_B tr)

/-! ## Task iterations -/

/-- One iteration of `vTaskSensorRead` (lines 138-143); `adc0` and `adc1` are the
results of the two `adc_read` calls, stored into `uint16_t` fields. -/
def vTaskSensorRead_iter (adc0 adc1 : Nat) (s : Sys) : Sys :=
  emit Who.Sensor vTaskSensorRead_body
    { s with qSensor := xQueueOverwrite s.qSensor ⟨adc0 % 2 ^ 16, adc1 % 2 ^ 16⟩ }

/-- One iteration of `vTaskProcess` (lines 152-157). On a single core nothing runs
between its three queue calls: it has the highest priority and `xQueueOverwrite`
does not block. -/
def vTaskProcess_iter (s : Sys) : Option Sys :=
  match xQueueReceive s.qSensor portMAX_DELAY with
  | QueueRead.received sd q =>
    some { s with qSensor := q
                  qDisplay := xQueueOverwrite s.qDisplay sd
                  qStatus := xQueueOverwrite s.qStatus (classify sd) }
  | QueueRead.expired => some s
  | QueueRead.parked => none

/-- One iteration of `vTaskLedRGB` (lines 165-175). -/
def vTaskLedRGB_iter (s : Sys) : Option Sys :=
  match xQueuePeek s.qStatus portMAX_DELAY with
  | QueueRead.received st q =>
    some (emit Who.RGB (vTaskLedRGB_body st)
      { s with qStatus := q, loc := { s.loc with stRGB := st } })
  | QueueRead.expired => some (emit Who.RGB (vTaskLedRGB_body s.loc.stRGB) s)
  | QueueRead.parked => none

/-- One iteration of `vTaskBuzzer` (lines 183-193). -/
def vTaskBuzzer_iter (s : Sys) : Option Sys :=
  match xQueuePeek s.qStatus portMAX_DELAY with
  | QueueRead.received st q =>
    some (emit Who.Buzz (vTaskBuzzer_body st)
      { s with qStatus := q, loc := { s.loc with stBuzz := st } })
  | QueueRead.expired => some (emit Who.Buzz (vTaskBuzzer_body s.loc.stBuzz) s)
  | QueueRead.parked => none

/-- One iteration of `vTaskMatrix` (lines 206-217). -/
def vTaskMatrix_iter (s : Sys) : Option Sys :=
  match xQueuePeek s.qStatus portMAX_DELAY with
  | QueueRead.received st q =>
    some (emit Who.Matrix (vTaskMatrix_body st)
      { s with qStatus := q, loc := { s.loc with stMatrix := st } })
  | QueueRead.expired => some (emit Who.Matrix (vTaskMatrix_body s.loc.stMatrix) s)
  | QueueRead.parked => none

/-- The next queue call of `vTaskDisplay` together with the code up to the following
one: either the `xQueueReceive` of line 231, or the `xQueuePeek` of line 232 and the
drawing of lines 233-245. Other tasks may run between the two. -/
def vTaskDisplay_step (s : Sys) : Option Sys :=
  match s.dispPc with
  | DispPc.atReceive =>
    match xQueueReceive s.qDisplay portMAX_DELAY with
    | QueueRead.received sd q =>
      some { s with qDisplay := q, loc := { s.loc with sdDisp := sd }, dispPc := DispPc.atPeek }
    | QueueRead.expired => some { s with dispPc := DispPc.atPeek }
    | QueueRead.parked => none
  | DispPc.atPeek =>
    match xQueuePeek s.qStatus portMAX_DELAY with
    | QueueRead.received st q =>
      some (emit Who.Disp (vTaskDisplay_body s.loc.sdDisp st)
        { s with qStatus := q, loc := { s.loc with stDisp := st }, dispPc := DispPc.atReceive })
    | QueueRead.expired =>
      some (emit Who.Disp (vTaskDisplay_body s.loc.sdDisp s.loc.stDisp)
        { s with dispPc := DispPc.atReceive })
    | QueueRead.parked => none

/-- One iteration of `vTaskDisplay` (lines 231-245) with no other task running
between its two queue reads. -/
def vTaskDisplay_iter (s : Sys) : Option Sys :=
  (vTaskDisplay_step s).bind vTaskDisplay_step

/-! ## Runs -/

/-- A scheduling event: which task performs its next step, with the two ADC results
for the sensor task. -/
inductive Event where
  | sensor (adc0 adc1 : Nat)
  | process
  | rgb
  | buzz
  | matrix
  | disp
  deriving DecidableEq, Repr

/-- The step of the task named by the event; `none` when that task is parked. -/
def step (s : Sys) : Event → Option Sys
  | Event.sensor a b => some (vTaskSensorRead_iter a b s)
  | Event.process => vTaskProcess_iter s
  | Event.rgb => vTaskLedRGB_iter s
  | Event.buzz => vTaskBuzzer_iter s
  | Event.matrix => vTaskMatrix_iter s
  | Event.disp => vTaskDisplay_step s

/-- A parked task contributes no transition. -/
def exec (s : Sys) (e : Event) : Sys := (step s e).getD s

/-- The state after a sequence of events. -/
def run (s : Sys) (evs : List Event) : Sys := evs.foldl exec s

/-- The reading that the event consumes from the sensor queue, if any. -/
def consumed (s : Sys) : Event → Option SensorData
  | Event.process =>
    match xQueueReceive s.qSensor portMAX_DELAY with
    | QueueRead.received sd _ => some sd
    | _ => none
  | _ => none

/-- The reading most recently consumed by `vTaskProcess` along a run, starting from
`last`. -/
def lastConsumed (s : Sys) (last : Option SensorData) : List Event → Option SensorData
  | [] => last
  | e :: es =>
    lastConsumed (exec s e)
      (match consumed s e with
       | some sd => some sd
       | none => last) es

/-- The calls in a trace that were issued by one of the four actuator tasks. -/
def actuatorCalls (tr : List (Who × Call)) : List (Who × Call) :=
  tr.filter (fun e =>
    e.1 = Who.RGB || e.1 = Who.Buzz || e.1 = Who.Matrix || e.1 = Who.Disp)

/-- The calls in a trace that were issued by `w`. -/
def callsOf (w : Who) (tr : List (Who × Call)) : List (Who × Call) :=
  tr.filter (fun e => e.1 = w)

/-- The calls that the event adds to the trace. -/
def issued (s : Sys) (e : Event) : List (Who × Call) :=
  (exec s e).trace.drop s.trace.length

/-- The timed waits among some calls. -/
def waitsOf (cs : List (Who × Call)) : List (Who × Call) :=
  cs.filter (fun c => c.2.isWait)

/-- Every queue of the state is valid. -/
def Sys.Valid (s : Sys) : Prop :=
  s.qSensor.Valid ∧ s.qDisplay.Valid ∧ s.qStatus.Valid


instance (s : Sys) : Decidable s.Valid := by
  unfold Sys.Valid; infer_instance

/-- Status readers: the events whose step reads the status queue with `xQueuePeek`
or, for the display task at line 231, touches only the display queue. -/
def Event.peeksStatus : Event → Bool
  | Event.rgb => true
  | Event.buzz => true
  | Event.matrix => true
  | Event.disp => true
  | _ => false

/-- Coherence of the display queue and the status queue. -/
def Coherent (s : Sys) : Prop :=
  ∀ r, s.qDisplay.items = [r] → s.qStatus.items = [classify r]

/-- The content of the status queue that corresponds to the last consumed reading. -/
def statusFor : Option SensorData → List SystemStatus
  | none => []
  | some r => [classify r]

/-- The state of the outputs and of the two downstream queues before the first
classification. -/
def Quiet (s : Sys) : Prop :=
  s.qDisplay.items = [] ∧ s.qStatus.items = [] ∧ s.dispPc = DispPc.atReceive ∧
  actuatorCalls s.trace = [] ∧ rgbOutput s.trace = (some 0, some 255, some 0)

/-! ## Lemmas on the queue primitives -/

theorem xQueueOverwrite_items {α : Type} (q : Queue α) (v : α) :
    (xQueueOverwrite q v).items = v :: q.items.tail := rfl

theorem xQueueOverwrite_valid {α : Type} (q : Queue α) (v : α) (hq : q.Valid) :
    (xQueueOverwrite q v).Valid ∧ (xQueueOverwrite q v).items = [v] := by
  obtain ⟨h1, h2⟩ := hq
  rcases q with ⟨n, items⟩
  simp only at h1 h2
  subst h1
  match items, h2 with
  | [], _ => exact ⟨⟨rfl, by simp [xQueueOverwrite]⟩, rfl⟩
  | [x], _ => exact ⟨⟨rfl, by simp [xQueueOverwrite]⟩, rfl⟩
  | _ :: _ :: _, h => simp at h

theorem xQueuePeek_queue {α : Type} (q q1 : Queue α) (t : Nat) (v : α)
    (h : xQueuePeek q t = QueueRead.received v q1) : q1 = q ∧ ∃ rest, q.items = v :: rest := by
  unfold xQueuePeek at h
  split at h
  · next w rest hw =>
    simp only [QueueRead.received.injEq] at h
    exact ⟨h.2.symm, rest, by rw [hw, h.1]⟩
  · split at h <;> simp at h

theorem xQueueReceive_valid {α : Type} (q q1 : Queue α) (t : Nat) (v : α) (hq : q.Valid)
    (h : xQueueReceive q t = QueueRead.received v q1) :
    q1.Valid ∧ q1.items = [] ∧ q.items = [v] := by
  obtain ⟨h1, h2⟩ := hq
  rcases q with ⟨n, items⟩
  simp only at h1 h2
  subst h1
  match items, h2 with
  | [], _ => simp [xQueueReceive] at h; split at h <;> simp at h
  | [x], _ =>
    simp only [xQueueReceive, QueueRead.received.injEq] at h
    obtain ⟨hx, hq1⟩ := h
    subst hx; subst hq1
    exact ⟨⟨rfl, by simp⟩, rfl, rfl⟩
  | _ :: _ :: _, h => simp at h

theorem xQueueReceive_portMAX_DELAY {α : Type} (q : Queue α) :
    xQueueReceive q portMAX_DELAY ≠ QueueRead.expired := by
  unfold xQueueReceive
  split <;> simp

theorem xQueuePeek_portMAX_DELAY {α : Type} (q : Queue α) :
    xQueuePeek q portMAX_DELAY ≠ QueueRead.expired := by
  unfold xQueuePeek
  split <;> simp


/-! ## Lemmas on single steps -/

theorem emit_queues (w : Who) (cs : List Call) (s : Sys) :
    (emit w cs s).qSensor = s.qSensor ∧ (emit w cs s).qDisplay = s.qDisplay ∧
    (emit w cs s).qStatus = s.qStatus ∧ (emit w cs s).dispPc = s.dispPc ∧
    (emit w cs s).loc = s.loc := ⟨rfl, rfl, rfl, rfl, rfl⟩

theorem exec_peeker_qStatus (s : Sys) (e : Event) (he : e.peeksStatus = true) :
    (exec s e).qStatus = s.qStatus := by
  cases e <;> simp [Event.peeksStatus] at he
  · simp only [exec, step, vTaskLedRGB_iter]
    cases hp : xQueuePeek s.qStatus portMAX_DELAY with
    | received v q => simp [emit, (xQueuePeek_queue _ _ _ _ hp).1]
    | parked => simp
    | expired => simp [emit]
  · simp only [exec, step, vTaskBuzzer_iter]
    cases hp : xQueuePeek s.qStatus portMAX_DELAY with
    | received v q => simp [emit, (xQueuePeek_queue _ _ _ _ hp).1]
    | parked => simp
    | expired => simp [emit]
  · simp only [exec, step, vTaskMatrix_iter]
    cases hp : xQueuePeek s.qStatus portMAX_DELAY with
    | received v q => simp [emit, (xQueuePeek_queue _ _ _ _ hp).1]
    | parked => simp
    | expired => simp [emit]
  · simp only [exec, step, vTaskDisplay_step]
    cases hpc : s.dispPc with
    | atReceive =>
      simp only
      cases hp : xQueueReceive s.qDisplay portMAX_DELAY <;> simp
    | atPeek =>
      simp only
      cases hp : xQueuePeek s.qStatus portMAX_DELAY with
      | received v q => simp [emit, (xQueuePeek_queue _ _ _ _ hp).1]
      | parked => simp
      | expired => simp [emit]

theorem exec_valid (s : Sys) (e : Event) (hs : s.Valid) : (exec s e).Valid := by
  obtain ⟨h1, h2, h3⟩ := hs
  cases e with
  | sensor a b =>
    exact ⟨(xQueueOverwrite_valid _ _ h1).1, h2, h3⟩
  | process =>
    simp only [exec, step, vTaskProcess_iter]
    cases hp : xQueueReceive s.qSensor portMAX_DELAY with
    | received v q =>
      exact ⟨(xQueueReceive_valid _ _ _ _ h1 hp).1, (xQueueOverwrite_valid _ _ h2).1,
        (xQueueOverwrite_valid _ _ h3).1⟩
    | parked => exact ⟨h1, h2, h3⟩
    | expired => exact ⟨h1, h2, h3⟩
  | rgb =>
    simp only [exec, step, vTaskLedRGB_iter]
    cases hp : xQueuePeek s.qStatus portMAX_DELAY with
    | received v q => exact ⟨h1, h2, by rw [(xQueuePeek_queue _ _ _ _ hp).1] at *; exact h3⟩
    | parked => exact ⟨h1, h2, h3⟩
    | expired => exact ⟨h1, h2, h3⟩
  | buzz =>
    simp only [exec, step, vTaskBuzzer_iter]
    cases hp : xQueuePeek s.qStatus portMAX_DELAY with
    | received v q => exact ⟨h1, h2, by rw [(xQueuePeek_queue _ _ _ _ hp).1] at *; exact h3⟩
    | parked => exact ⟨h1, h2, h3⟩
    | expired => exact ⟨h1, h2, h3⟩
  | matrix =>
    simp only [exec, step, vTaskMatrix_iter]
    cases hp : xQueuePeek s.qStatus portMAX_DELAY with
    | received v q => exact ⟨h1, h2, by rw [(xQueuePeek_queue _ _ _ _ hp).1] at *; exact h3⟩
    | parked => exact ⟨h1, h2, h3⟩
    | expired => exact ⟨h1, h2, h3⟩
  | disp =>
    simp only [exec, step, vTaskDisplay_step]
    cases hpc : s.dispPc with
    | atReceive =>
      simp only
      cases hp : xQueueReceive s.qDisplay portMAX_DELAY with
      | received v q => exact ⟨h1, (xQueueReceive_valid _ _ _ _ h2 hp).1, h3⟩
      | parked => exact ⟨h1, h2, h3⟩
      | expired => exact ⟨h1, h2, h3⟩
    | atPeek =>
      simp only
      cases hp : xQueuePeek s.qStatus portMAX_DELAY with
      | received v q => exact ⟨h1, h2, by rw [(xQueuePeek_queue _ _ _ _ hp).1] at *; exact h3⟩
      | parked => exact ⟨h1, h2, h3⟩
      | expired => exact ⟨h1, h2, h3⟩

theorem run_valid (evs : List Event) (s : Sys) (hs : s.Valid) : (run s evs).Valid := by
  induction evs generalizing s with
  | nil => exact hs
  | cons e es ih => exact ih (exec s e) (exec_valid s e hs)

theorem boot_valid (junk : Locals) : (boot junk).Valid := by
  refine ⟨⟨rfl, ?_⟩, ⟨rfl, ?_⟩, ⟨rfl, ?_⟩⟩ <;> simp [boot, xQueueCreate]

theorem run_peekers_qStatus (evs : List Event) (s : Sys)
    (he : ∀ e ∈ evs, e.peeksStatus = true) : (run s evs).qStatus = s.qStatus := by
  induction evs generalizing s with
  | nil => rfl
  | cons e es ih =>
    have h1 := exec_peeker_qStatus s e (he e (by simp))
    have h2 := ih (exec s e) (fun x hx => he x (by simp [hx]))
    exact h2.trans h1


/-! ## Invariants of runs -/

theorem exec_cases (s : Sys) (e : Event) (hs : s.Valid) :
    ((exec s e).qDisplay = s.qDisplay ∧ (exec s e).qStatus = s.qStatus ∧
      consumed s e = none) ∨
    (∃ sd, e = Event.process ∧ s.qSensor.items = [sd] ∧ (exec s e).qSensor.items = [] ∧
      (exec s e).qDisplay.items = [sd] ∧
      (exec s e).qStatus.items = [classify sd] ∧ consumed s e = some sd) ∨
    (e = Event.disp ∧ (exec s e).qDisplay.items = [] ∧ (exec s e).qStatus = s.qStatus ∧
      consumed s e = none) := by
  obtain ⟨h1, h2, h3⟩ := hs
  cases e with
  | sensor a b => exact Or.inl ⟨rfl, rfl, rfl⟩
  | process =>
    simp only [exec, step, vTaskProcess_iter, consumed]
    cases hp : xQueueReceive s.qSensor portMAX_DELAY with
    | received v q =>
      refine Or.inr (Or.inl ⟨v, trivial, (xQueueReceive_valid _ _ _ _ h1 hp).2.2,
        (xQueueReceive_valid _ _ _ _ h1 hp).2.1, (xQueueOverwrite_valid _ _ h2).2,
        (xQueueOverwrite_valid _ _ h3).2, rfl⟩)
    | parked => exact Or.inl ⟨rfl, rfl, rfl⟩
    | expired => exact Or.inl ⟨rfl, rfl, rfl⟩
  | rgb =>
    refine Or.inl ⟨?_, exec_peeker_qStatus s _ rfl, rfl⟩
    simp only [exec, step, vTaskLedRGB_iter]
    cases hp : xQueuePeek s.qStatus portMAX_DELAY <;> rfl
  | buzz =>
    refine Or.inl ⟨?_, exec_peeker_qStatus s _ rfl, rfl⟩
    simp only [exec, step, vTaskBuzzer_iter]
    cases hp : xQueuePeek s.qStatus portMAX_DELAY <;> rfl
  | matrix =>
    refine Or.inl ⟨?_, exec_peeker_qStatus s _ rfl, rfl⟩
    simp only [exec, step, vTaskMatrix_iter]
    cases hp : xQueuePeek s.qStatus portMAX_DELAY <;> rfl
  | disp =>
    have hq := exec_peeker_qStatus s Event.disp rfl
    simp only [exec, step, vTaskDisplay_step] at hq ⊢
    cases hpc : s.dispPc with
    | atReceive =>
      simp only [hpc] at hq ⊢
      cases hp : xQueueReceive s.qDisplay portMAX_DELAY with
      | received v q =>
        exact Or.inr (Or.inr ⟨trivial, (xQueueReceive_valid _ _ _ _ h2 hp).2.1, rfl, rfl⟩)
      | parked => exact Or.inl ⟨rfl, rfl, rfl⟩
      | expired => exact Or.inl ⟨rfl, rfl, rfl⟩
    | atPeek =>
      simp only [hpc] at hq ⊢
      refine Or.inl ⟨?_, hq, rfl⟩
      cases hp : xQueuePeek s.qStatus portMAX_DELAY <;> rfl

theorem exec_coherent (s : Sys) (e : Event) (hs : s.Valid) (hc : Coherent s) :
    Coherent (exec s e) := by
  intro r hr
  rcases exec_cases s e hs with ⟨hd, hst, _⟩ | ⟨sd, _, _, _, hd, hst, _⟩ | ⟨_, hd, _, _⟩
  · rw [hd] at hr; rw [hst]; exact hc r hr
  · rw [hd] at hr
    simp only [List.cons.injEq, and_true] at hr
    subst hr; exact hst
  · rw [hd] at hr; simp at hr

theorem run_coherent (evs : List Event) (s : Sys) (hs : s.Valid) (hc : Coherent s) :
    Coherent (run s evs) := by
  induction evs generalizing s with
  | nil => exact hc
  | cons e es ih => exact ih (exec s e) (exec_valid s e hs) (exec_coherent s e hs hc)

theorem boot_coherent (junk : Locals) : Coherent (boot junk) := by
  intro r hr
  simp [boot, xQueueCreate] at hr

theorem run_status_tracks (evs : List Event) (s : Sys) (last : Option SensorData)
    (hs : s.Valid) (h : s.qStatus.items = statusFor last) :
    (run s evs).qStatus.items = statusFor (lastConsumed s last evs) := by
  induction evs generalizing s last with
  | nil => exact h
  | cons e es ih =>
    simp only [run, List.foldl_cons, lastConsumed]
    apply ih (exec s e) _ (exec_valid s e hs)
    rcases exec_cases s e hs with ⟨_, hst, hc⟩ | ⟨sd, _, _, _, _, hst, hc⟩ | ⟨_, _, hst, hc⟩
    · rw [hc, hst]; exact h
    · rw [hc]; exact hst
    · rw [hc, hst]; exact h

theorem lastConsumed_some (evs : List Event) (s : Sys) (r : SensorData) :
    lastConsumed s (some r) evs ≠ none := by
  induction evs generalizing s r with
  | nil => simp [lastConsumed]
  | cons e es ih =>
    simp only [lastConsumed]
    cases consumed s e with
    | none => exact ih _ _
    | some sd => exact ih _ _

theorem exec_quiet (s : Sys) (e : Event) (hq : Quiet s) (hc : consumed s e = none) :
    Quiet (exec s e) := by
  obtain ⟨h1, h2, h3, h4, h5⟩ := hq
  cases e with
  | sensor a b =>
    refine ⟨h1, h2, h3, ?_, ?_⟩
    · simp [exec, step, vTaskSensorRead_iter, emit, actuatorCalls, vTaskSensorRead_body] at h4 ⊢
      exact h4
    · simp [exec, step, vTaskSensorRead_iter, emit, rgbOutput, pwmLevel,
        vTaskSensorRead_body] at h5 ⊢
      exact h5
  | process =>
    simp only [consumed] at hc
    simp only [exec, step, vTaskProcess_iter]
    cases hp : xQueueReceive s.qSensor portMAX_DELAY with
    | received v q => simp [hp] at hc
    | parked => exact ⟨h1, h2, h3, h4, h5⟩
    | expired => exact ⟨h1, h2, h3, h4, h5⟩
  | rgb =>
    simp only [exec, step, vTaskLedRGB_iter, xQueuePeek, h2]
    exact ⟨h1, h2, h3, h4, h5⟩
  | buzz =>
    simp only [exec, step, vTaskBuzzer_iter, xQueuePeek, h2]
    exact ⟨h1, h2, h3, h4, h5⟩
  | matrix =>
    simp only [exec, step, vTaskMatrix_iter, xQueuePeek, h2]
    exact ⟨h1, h2, h3, h4, h5⟩
  | disp =>
    simp only [exec, step, vTaskDisplay_step, h3, xQueueReceive, h1]
    exact ⟨h1, h2, h3, h4, h5⟩

theorem run_quiet (evs : List Event) (s : Sys) (hq : Quiet s)
    (h : lastConsumed s none evs = none) : Quiet (run s evs) := by
  induction evs generalizing s with
  | nil => exact hq
  | cons e es ih =>
    simp only [lastConsumed] at h
    cases hc : consumed s e with
    | none =>
      rw [hc] at h
      exact ih (exec s e) (exec_quiet s e hq hc) h
    | some sd =>
      rw [hc] at h
      exact absurd h (lastConsumed_some es _ sd)

theorem boot_quiet (junk : Locals) : Quiet (boot junk) := by
  exact ⟨rfl, rfl, rfl, rfl, rfl⟩


/-! ## Lemmas on the drawn text -/

theorem readDigit_digitChar (acc d : Nat) (h : d < 10) :
    readDigit acc (Nat.digitChar d) = acc * 10 + d := by
  interval_cases d <;> rfl

theorem foldl_readDigit_toDigitsCore (fuel : Nat) :
    ∀ (n : Nat) (ds : List Char), n < fuel →
      (Nat.toDigitsCore 10 fuel n ds).foldl readDigit 0 = ds.foldl readDigit n := by
  induction fuel with
  | zero => intro n ds h; omega
  | succ f ih =>
    intro n ds h
    simp only [Nat.toDigitsCore]
    split
    · next h0 =>
      have hn : n % 10 = n := by omega
      simp only [List.foldl_cons, readDigit_digitChar 0 (n % 10) (Nat.mod_lt _ (by decide))]
      rw [hn]; simp
    · next h0 =>
      have hlt : n / 10 < f := by omega
      rw [ih (n / 10) _ hlt]
      simp only [List.foldl_cons, readDigit_digitChar (n / 10) (n % 10) (Nat.mod_lt _ (by decide))]
      have : n / 10 * 10 + n % 10 = n := by omega
      rw [this]

theorem foldl_readDigit_blanks (k acc : Nat) :
    (List.replicate k ' ').foldl readDigit acc = acc := by
  induction k with
  | zero => rfl
  | succ m ih => simpa [List.replicate_succ, readDigit] using ih

theorem shownNumber_fmt4u (label : String) (n : Nat)
    (hl : label.data.foldl readDigit 0 = 0) : shownNumber (label ++ fmt4u n) = n := by
  unfold shownNumber fmt4u
  simp only [String.data_append, List.foldl_append, hl, foldl_readDigit_blanks]
  simp only [Nat.repr, Nat.toDigits, List.asString]
  rw [foldl_readDigit_toDigitsCore (n + 1) n [] (by omega)]
  rfl

/-! ## Lemmas on the display task -/

theorem exec_nondisp (s : Sys) (e : Event) (he : e ≠ Event.disp) :
    (exec s e).dispPc = s.dispPc ∧ (exec s e).loc.sdDisp = s.loc.sdDisp ∧
    callsOf Who.Disp (exec s e).trace = callsOf Who.Disp s.trace := by
  cases e with
  | sensor a b =>
    refine ⟨rfl, rfl, ?_⟩
    simp [exec, step, vTaskSensorRead_iter, emit, callsOf, vTaskSensorRead_body]
  | process =>
    simp only [exec, step, vTaskProcess_iter]
    cases hp : xQueueReceive s.qSensor portMAX_DELAY <;> exact ⟨rfl, rfl, rfl⟩
  | rgb =>
    simp only [exec, step, vTaskLedRGB_iter]
    cases hp : xQueuePeek s.qStatus portMAX_DELAY <;> refine ⟨rfl, rfl, ?_⟩ <;>
      simp [emit, callsOf]
  | buzz =>
    simp only [exec, step, vTaskBuzzer_iter]
    cases hp : xQueuePeek s.qStatus portMAX_DELAY <;> refine ⟨rfl, rfl, ?_⟩ <;>
      simp [emit, callsOf]
  | matrix =>
    simp only [exec, step, vTaskMatrix_iter]
    cases hp : xQueuePeek s.qStatus portMAX_DELAY <;> refine ⟨rfl, rfl, ?_⟩ <;>
      simp [emit, callsOf]
  | disp => exact absurd rfl he

theorem run_nondisp (evs : List Event) (s : Sys) (he : Event.disp ∉ evs) :
    (run s evs).dispPc = s.dispPc ∧ (run s evs).loc.sdDisp = s.loc.sdDisp ∧
    callsOf Who.Disp (run s evs).trace = callsOf Who.Disp s.trace := by
  induction evs generalizing s with
  | nil => exact ⟨rfl, rfl, rfl⟩
  | cons e es ih =>
    have h1 := exec_nondisp s e (fun h => he (by simp [h]))
    have h2 := ih (exec s e) (fun h => he (by simp [h]))
    exact ⟨h2.1.trans h1.1, h2.2.1.trans h1.2.1, h2.2.2.trans h1.2.2⟩

theorem run_latest (evs : List Event) (s : Sys) (last : Option SensorData)
    (hs : s.Valid) (he : Event.disp ∉ evs)
    (h : ∀ r, last = some r → s.qDisplay.items = [r] ∧ s.qStatus.items = [classify r]) :
    ∀ r, lastConsumed s last evs = some r →
      (run s evs).qDisplay.items = [r] ∧ (run s evs).qStatus.items = [classify r] := by
  induction evs generalizing s last with
  | nil => exact h
  | cons e es ih =>
    simp only [run, List.foldl_cons, lastConsumed]
    apply ih (exec s e) _ (exec_valid s e hs) (fun hh => he (by simp [hh]))
    rcases exec_cases s e hs with ⟨hd, hst, hc⟩ | ⟨sd, _, _, _, hd, hst, hc⟩ | ⟨hdisp, _, _, _⟩
    · rw [hc, hd, hst]; exact h
    · rw [hc]
      intro r hr
      simp only [Option.some.injEq] at hr
      subst hr
      exact ⟨hd, hst⟩
    · exact absurd (by simp [hdisp]) he

theorem lastConsumed_of_none (evs : List Event) (s : Sys) (last : Option SensorData)
    (h : lastConsumed s none evs = none) : lastConsumed s last evs = last := by
  induction evs generalizing s last with
  | nil => rfl
  | cons e es ih =>
    simp only [lastConsumed] at h ⊢
    cases hc : consumed s e with
    | none =>
      rw [hc] at h
      exact ih _ _ h
    | some sd =>
      rw [hc] at h
      exact absurd h (lastConsumed_some es _ sd)

theorem receive_step (s s3 : Sys) (hs : s.Valid) (hpc : s.dispPc = DispPc.atReceive)
    (h : step s Event.disp = some s3) :
    s.qDisplay.items = [s3.loc.sdDisp] ∧ s3.qDisplay.items = [] ∧ s3.qStatus = s.qStatus ∧
    s3.dispPc = DispPc.atPeek ∧ s3.trace = s.trace ∧ s3.Valid := by
  obtain ⟨h1, h2, h3⟩ := hs
  simp only [step, vTaskDisplay_step, hpc] at h
  cases hp : xQueueReceive s.qDisplay portMAX_DELAY with
  | received v q =>
    rw [hp] at h
    simp only [Option.some.injEq] at h
    subst h
    have hv := xQueueReceive_valid _ _ _ _ h2 hp
    exact ⟨hv.2.2, hv.2.1, rfl, rfl, rfl, h1, hv.1, h3⟩
  | parked => rw [hp] at h; simp at h
  | expired => exact absurd hp (xQueueReceive_portMAX_DELAY _)

theorem render_step (t : Sys) (st : SystemStatus) (hpc : t.dispPc = DispPc.atPeek)
    (hst : t.qStatus.items = [st]) :
    ∃ s4, step t Event.disp = some s4 ∧
      s4.trace = t.trace ++ (vTaskDisplay_body t.loc.sdDisp st).map (fun c => (Who.Disp, c)) ∧
      s4.qDisplay = t.qDisplay ∧ s4.dispPc = DispPc.atReceive := by
  refine ⟨emit Who.Disp (vTaskDisplay_body t.loc.sdDisp st)
    { t with loc := { t.loc with stDisp := st }, dispPc := DispPc.atReceive }, ?_, rfl, rfl, rfl⟩
  simp [step, vTaskDisplay_step, hpc, xQueuePeek, hst]

theorem exec_qDisplay_of_none (s : Sys) (e : Event) (hs : s.Valid) (he : e ≠ Event.disp)
    (hc : consumed s e = none) : (exec s e).qDisplay = s.qDisplay := by
  rcases exec_cases s e hs with ⟨hd, _, _⟩ | ⟨sd, _, _, _, _, _, hc2⟩ | ⟨hdisp, _, _, _⟩
  · exact hd
  · rw [hc] at hc2; simp at hc2
  · exact absurd hdisp he

theorem run_qDisplay_of_none (evs : List Event) (s : Sys) (hs : s.Valid)
    (he : Event.disp ∉ evs) (h : lastConsumed s none evs = none) :
    (run s evs).qDisplay = s.qDisplay := by
  induction evs generalizing s with
  | nil => rfl
  | cons e es ih =>
    simp only [lastConsumed] at h
    cases hc : consumed s e with
    | none =>
      rw [hc] at h
      have h1 := exec_qDisplay_of_none s e hs (fun hh => he (by simp [hh])) hc
      have h2 := ih (exec s e) (exec_valid s e hs) (fun hh => he (by simp [hh])) h
      exact h2.trans h1
    | some sd =>
      rw [hc] at h
      exact absurd h (lastConsumed_some es _ sd)

theorem callsOf_display_body (tr : List (Who × Call)) (r : SensorData) (st : SystemStatus) :
    callsOf Who.Disp (tr ++ (vTaskDisplay_body r st).map (fun c => (Who.Disp, c)))
      = callsOf Who.Disp tr ++
        [(Who.Disp, Call.ssd1306_fill false),
         (Who.Disp, Call.ssd1306_draw_string ("Chuva: " ++ fmt4u r.rain) 0 0),
         (Who.Disp, Call.ssd1306_draw_string ("Nivel: " ++ fmt4u r.level) 0 10),
         (Who.Disp, Call.ssd1306_draw_string
            (if st = SystemStatus.ALERTA then "!!! ALERTA !!!" else "   NORMAL    ") 0 50),
         (Who.Disp, Call.ssd1306_send_data)] := by
  cases st <;> simp [callsOf, vTaskDisplay_body, List.filter_append]

/-! ## Lemmas on the issued calls -/

theorem issued_cases (s : Sys) (e : Event) :
    issued s e =
      match e with
      | Event.sensor _ _ => vTaskSensorRead_body.map (fun c => (Who.Sensor, c))
      | Event.process => []
      | Event.rgb =>
        (match s.qStatus.items with
         | [] => []
         | st :: _ => (vTaskLedRGB_body st).map (fun c => (Who.RGB, c)))
      | Event.buzz =>
        (match s.qStatus.items with
         | [] => []
         | st :: _ => (vTaskBuzzer_body st).map (fun c => (Who.Buzz, c)))
      | Event.matrix =>
        (match s.qStatus.items with
         | [] => []
         | st :: _ => (vTaskMatrix_body st).map (fun c => (Who.Matrix, c)))
      | Event.disp =>
        (match s.dispPc, s.qStatus.items with
         | DispPc.atReceive, _ => []
         | DispPc.atPeek, [] => []
         | DispPc.atPeek, st :: _ =>
           (vTaskDisplay_body s.loc.sdDisp st).map (fun c => (Who.Disp, c))) := by
  cases e with
  | sensor a b => simp [issued, exec, step, vTaskSensorRead_iter, emit]
  | process =>
    simp only [issued, exec, step, vTaskProcess_iter]
    cases hp : xQueueReceive s.qSensor portMAX_DELAY <;> simp
  | rgb =>
    simp only [issued, exec, step, vTaskLedRGB_iter, xQueuePeek]
    cases hq : s.qStatus.items <;> simp [emit]
  | buzz =>
    simp only [issued, exec, step, vTaskBuzzer_iter, xQueuePeek]
    cases hq : s.qStatus.items <;> simp [emit]
  | matrix =>
    simp only [issued, exec, step, vTaskMatrix_iter, xQueuePeek]
    cases hq : s.qStatus.items <;> simp [emit]
  | disp =>
    simp only [issued, exec, step, vTaskDisplay_step, xQueuePeek, xQueueReceive]
    cases hpc : s.dispPc with
    | atReceive => cases hd : s.qDisplay.items <;> simp
    | atPeek => cases hq : s.qStatus.items <;> simp [emit]

theorem waitsOf_issued (s : Sys) (e : Event) :
    waitsOf (issued s e) =
      match e with
      | Event.sensor _ _ => [(Who.Sensor, Call.vTaskDelay 200)]
      | Event.process => []
      | Event.rgb =>
        (match s.qStatus.items with
         | [] => []
         | _ :: _ => [(Who.RGB, Call.vTaskDelay 200)])
      | Event.buzz =>
        (match s.qStatus.items with
         | [] => []
         | SystemStatus.ALERTA :: _ =>
           [(Who.Buzz, Call.sleep_ms 200), (Who.Buzz, Call.vTaskDelay 500)]
         | SystemStatus.NORMAL :: _ => [(Who.Buzz, Call.vTaskDelay 1000)])
      | Event.matrix =>
        (match s.qStatus.items with
         | [] => []
         | _ :: _ => [(Who.Matrix, Call.vTaskDelay 300)])
      | Event.disp => [] := by
  rw [issued_cases]
  cases e with
  | sensor a b => rfl
  | process => rfl
  | rgb =>
    cases hq : s.qStatus.items with
    | nil => rfl
    | cons st rest => cases st <;> rfl
  | buzz =>
    cases hq : s.qStatus.items with
    | nil => rfl
    | cons st rest => cases st <;> rfl
  | matrix =>
    cases hq : s.qStatus.items with
    | nil => rfl
    | cons st rest => cases st <;> rfl
  | disp =>
    cases hpc : s.dispPc with
    | atReceive => rfl
    | atPeek =>
      cases hq : s.qStatus.items with
      | nil => rfl
      | cons st rest =>
        cases st <;> simp [waitsOf, vTaskDisplay_body, Call.isWait]

/-! ## The claims -/

/-- C1. For every reading with both fields in [0, 4095] the classification is ALERTA
exactly when level >= 2867 or rain >= 3276 and NORMAL otherwise; the four boundary
readings (0, 2867), (0, 2866), (3276, 0), (3275, 0) classify as ALERTA, NORMAL,
ALERTA, NORMAL. -/
theorem classify_thresholds_inclusive (rain level : Nat)
    (_hr : rain ≤ 4095) (_hl : level ≤ 4095) :
    (classify ⟨rain, level⟩ = SystemStatus.ALERTA ↔ (level ≥ 2867 ∨ rain ≥ 3276)) ∧
    (classify ⟨rain, level⟩ = SystemStatus.NORMAL ↔ ¬ (level ≥ 2867 ∨ rain ≥ 3276)) ∧
    classify ⟨0, 2867⟩ = SystemStatus.ALERTA ∧
    classify ⟨0, 2866⟩ = SystemStatus.NORMAL ∧
    classify ⟨3276, 0⟩ = SystemStatus.ALERTA ∧
    classify ⟨3275, 0⟩ = SystemStatus.NORMAL := by
  refine ⟨?_, ?_, by decide, by decide, by decide, by decide⟩
  · unfold classify LEVEL_ALERT_TH RAIN_ALERT_TH
    by_cases h : level ≥ 2867 ∨ rain ≥ 3276 <;> simp [h]
  · unfold classify LEVEL_ALERT_TH RAIN_ALERT_TH
    by_cases h : level ≥ 2867 ∨ rain ≥ 3276 <;> simp [h]

/-- Witness of C1 at the reading rain = 3275, level = 2867. -/
theorem classify_thresholds_inclusive_witness :
    (3275 ≤ 4095 ∧ 2867 ≤ 4095) ∧
    (classify ⟨3275, 2867⟩ = SystemStatus.ALERTA ↔ (2867 ≥ 2867 ∨ 3275 ≥ 3276)) :=
  ⟨by decide, (classify_thresholds_inclusive 3275 2867 (by decide) (by decide)).1⟩

/-- C2. On a valid length-one queue, two overwrites with a then b followed by a
receive deliver b and leave the queue empty; the value delivered is not a whenever
a differs from b; and the queue holds at most one value after each of the three
operations. -/
theorem overwrite_then_receive_latest {α : Type} (q : Queue α) (a b : α) (t : Nat)
    (hq : q.Valid) :
    xQueueReceive (xQueueOverwrite (xQueueOverwrite q a) b) t
      = QueueRead.received b ⟨1, []⟩ ∧
    (a ≠ b → ∀ q1, xQueueReceive (xQueueOverwrite (xQueueOverwrite q a) b) t
      ≠ QueueRead.received a q1) ∧
    (xQueueOverwrite q a).items = [a] ∧
    (xQueueOverwrite (xQueueOverwrite q a) b).items = [b] ∧
    (xQueueOverwrite q a).Valid ∧ (xQueueOverwrite (xQueueOverwrite q a) b).Valid ∧
    (⟨1, []⟩ : Queue α).Valid := by
  have h1 := xQueueOverwrite_valid q a hq
  have h2 := xQueueOverwrite_valid (xQueueOverwrite q a) b h1.1
  have hr : xQueueReceive (xQueueOverwrite (xQueueOverwrite q a) b) t
      = QueueRead.received b ⟨1, []⟩ := by
    have hl : (xQueueOverwrite (xQueueOverwrite q a) b).uxLength = 1 := h2.1.1
    unfold xQueueReceive
    rw [h2.2]
    simp only [QueueRead.received.injEq, true_and]
    rw [← hl]
  refine ⟨hr, ?_, h1.2, h2.2, h1.1, h2.1, ⟨rfl, by simp⟩⟩
  intro hab q1 hcontra
  rw [hr] at hcontra
  simp only [QueueRead.received.injEq] at hcontra
  exact hab hcontra.1.symm

/-- Witness of C2 on a queue that already holds 7, with a = 1 and b = 2. -/
theorem overwrite_then_receive_latest_witness :
    (⟨1, [7]⟩ : Queue Nat).Valid ∧
    xQueueReceive (xQueueOverwrite (xQueueOverwrite (⟨1, [7]⟩ : Queue Nat) 1) 2) portMAX_DELAY
      = QueueRead.received 2 ⟨1, []⟩ :=
  ⟨by decide, (overwrite_then_receive_latest ⟨1, [7]⟩ 1 2 portMAX_DELAY (by decide)).1⟩


theorem peekMany_cons {α : Type} (v : α) (rest : List α) (k : Nat) (n : Nat) :
    peekMany (⟨k, v :: rest⟩ : Queue α) n = (List.replicate n v, ⟨k, v :: rest⟩) := by
  induction n with
  | zero => rfl
  | succ m ih =>
    simp only [peekMany, xQueuePeek, ih, List.replicate_succ]

/-- C3. After a status v has been written to the status queue, n successive peeks
(n >= 1) return v each time and leave the queue as it was, and any sequence of
steps of the four tasks that peek the status (RGB, buzzer, matrix, display) leaves
the status queue unchanged, so that the next peek still returns v. -/
theorem peek_is_nonconsuming (s : Sys) (v : SystemStatus) (n : Nat) (evs : List Event)
    (_hn : 1 ≤ n) (hev : ∀ e ∈ evs, e.peeksStatus = true) :
    peekMany (xQueueOverwrite s.qStatus v) n
      = (List.replicate n v, xQueueOverwrite s.qStatus v) ∧
    (peekMany (xQueueOverwrite s.qStatus v) n).1.length = n ∧
    (run { s with qStatus := xQueueOverwrite s.qStatus v } evs).qStatus
      = xQueueOverwrite s.qStatus v ∧
    xQueuePeek (run { s with qStatus := xQueueOverwrite s.qStatus v } evs).qStatus
      portMAX_DELAY = QueueRead.received v (xQueueOverwrite s.qStatus v) := by
  have hp : peekMany (xQueueOverwrite s.qStatus v) n
      = (List.replicate n v, xQueueOverwrite s.qStatus v) :=
    peekMany_cons v s.qStatus.items.tail s.qStatus.uxLength n
  have hrun := run_peekers_qStatus evs { s with qStatus := xQueueOverwrite s.qStatus v } hev
  refine ⟨hp, by rw [hp]; simp, hrun, ?_⟩
  rw [hrun]
  rfl

/-- Witness of C3: three peeks after publishing ALERTA at start-up, with one step of
each peeking task in between. -/
theorem peek_is_nonconsuming_witness :
    (1 ≤ 3 ∧ ∀ e ∈ [Event.rgb, Event.buzz, Event.matrix, Event.disp],
      e.peeksStatus = true) ∧
    peekMany (xQueueOverwrite (boot default).qStatus SystemStatus.ALERTA) 3
      = (List.replicate 3 SystemStatus.ALERTA,
         xQueueOverwrite (boot default).qStatus SystemStatus.ALERTA) :=
  ⟨by decide,
   (peek_is_nonconsuming (boot default) SystemStatus.ALERTA 3
      [Event.rgb, Event.buzz, Event.matrix, Event.disp] (by decide) (by decide)).1⟩

/-- C4. Let the classifier consume r1 and later r2 while the display task, standing
at its receive, does not run; other tasks may run in between in any order. Then r1
and afterwards r2 are in the display queue, no display call is issued meanwhile,
the next receive of the display task takes r2 and empties the display queue, and
the frame that the display task then draws, whatever runs before its peek, is
fill, the rain line and the level line of r2 (texts that show the numbers r2.rain
and r2.level), one banner and send; nothing of r1 is drawn. When no reading is
consumed between receive and peek the banner is that of classify r2 and the display
queue is still empty after the frame. -/
theorem display_coalesces_to_latest (s : Sys) (evs1 evs2 mid : List Event)
    (r1 r2 : SensorData) (hs : s.Valid) (hpc : s.dispPc = DispPc.atReceive)
    (hd1 : Event.disp ∉ evs1) (hd2 : Event.disp ∉ evs2) (hdm : Event.disp ∉ mid)
    (h1 : lastConsumed s none evs1 = some r1)
    (h2 : lastConsumed (run s evs1) none evs2 = some r2) :
    (run s evs1).qDisplay.items = [r1] ∧
    (run (run s evs1) evs2).qDisplay.items = [r2] ∧
    callsOf Who.Disp (run (run s evs1) evs2).trace = callsOf Who.Disp s.trace ∧
    ∃ s3, step (run (run s evs1) evs2) Event.disp = some s3 ∧
      s3.qDisplay.items = [] ∧ s3.loc.sdDisp = r2 ∧
      ∃ s4 st, step (run s3 mid) Event.disp = some s4 ∧
        callsOf Who.Disp s4.trace = callsOf Who.Disp s.trace ++
          [(Who.Disp, Call.ssd1306_fill false),
           (Who.Disp, Call.ssd1306_draw_string ("Chuva: " ++ fmt4u r2.rain) 0 0),
           (Who.Disp, Call.ssd1306_draw_string ("Nivel: " ++ fmt4u r2.level) 0 10),
           (Who.Disp, Call.ssd1306_draw_string
              (if st = SystemStatus.ALERTA then "!!! ALERTA !!!" else "   NORMAL    ") 0 50),
           (Who.Disp, Call.ssd1306_send_data)] ∧
        shownNumber ("Chuva: " ++ fmt4u r2.rain) = r2.rain ∧
        shownNumber ("Nivel: " ++ fmt4u r2.level) = r2.level ∧
        (lastConsumed s3 none mid = none → st = classify r2 ∧ s4.qDisplay.items = []) := by
  have hvA := run_valid evs1 s hs
  have hvB := run_valid evs2 (run s evs1) hvA
  have hA := run_latest evs1 s none hs hd1 (by simp) r1 h1
  have hB := run_latest evs2 (run s evs1) none hvA hd2 (by simp) r2 h2
  have ndA := run_nondisp evs1 s hd1
  have ndB := run_nondisp evs2 (run s evs1) hd2
  have hpcB : (run (run s evs1) evs2).dispPc = DispPc.atReceive := by
    rw [ndB.1, ndA.1, hpc]
  have hcalls : callsOf Who.Disp (run (run s evs1) evs2).trace = callsOf Who.Disp s.trace :=
    ndB.2.2.trans ndA.2.2
  have hex : ∃ s3, step (run (run s evs1) evs2) Event.disp = some s3 := by
    simp [step, vTaskDisplay_step, hpcB, xQueueReceive, hB.1]
  obtain ⟨s3, hs3⟩ := hex
  obtain ⟨g1, g2, g3, g4, g5, g6⟩ := receive_step _ s3 hvB hpcB hs3
  have hsd : s3.loc.sdDisp = r2 := by
    rw [hB.1] at g1
    simp only [List.cons.injEq, and_true] at g1
    exact g1.symm
  refine ⟨hA.1, hB.1, hcalls, s3, hs3, g2, hsd, ?_⟩
  have hq3 : s3.qStatus.items = statusFor (some r2) := by rw [g3, hB.2]; rfl
  have htrack := run_status_tracks mid s3 (some r2) g6 hq3
  have ndM := run_nondisp mid s3 hdm
  cases hL : lastConsumed s3 (some r2) mid with
  | none => exact absurd hL (lastConsumed_some mid s3 r2)
  | some r3 =>
    rw [hL] at htrack
    obtain ⟨s4, k1, k2, k3, _⟩ := render_step (run s3 mid) (classify r3)
      (by rw [ndM.1, g4]) htrack
    refine ⟨s4, classify r3, k1, ?_, shownNumber_fmt4u _ _ (by decide),
      shownNumber_fmt4u _ _ (by decide), ?_⟩
    · rw [k2, callsOf_display_body, ndM.2.2, ndM.2.1, hsd, g5, hcalls]
    · intro hnone
      have := lastConsumed_of_none mid s3 (some r2) hnone
      rw [hL] at this
      simp only [Option.some.injEq] at this
      refine ⟨by rw [this], ?_⟩
      rw [k3, run_qDisplay_of_none mid s3 g6 hdm hnone]
      exact g2

/-- Witness of C4 from start-up: r1 = (100, 100) and r2 = (3300, 100), with steps of
the RGB, buzzer and matrix tasks between the classifier iterations and before the
peek of the display task. -/
theorem display_coalesces_to_latest_witness :
    ((boot default).Valid ∧ (boot default).dispPc = DispPc.atReceive ∧
      Event.disp ∉ [Event.sensor 100 100, Event.process, Event.rgb] ∧
      Event.disp ∉ [Event.buzz, Event.sensor 3300 100, Event.process, Event.matrix] ∧
      Event.disp ∉ [Event.rgb, Event.sensor 7 7] ∧
      lastConsumed (boot default) none [Event.sensor 100 100, Event.process, Event.rgb]
        = some ⟨100, 100⟩ ∧
      lastConsumed (run (boot default) [Event.sensor 100 100, Event.process, Event.rgb]) none
        [Event.buzz, Event.sensor 3300 100, Event.process, Event.matrix] = some ⟨3300, 100⟩) ∧
    (run (run (boot default) [Event.sensor 100 100, Event.process, Event.rgb])
      [Event.buzz, Event.sensor 3300 100, Event.process, Event.matrix]).qDisplay.items
      = [⟨3300, 100⟩] ∧
    callsOf Who.Disp (run (boot default)
      [Event.sensor 100 100, Event.process, Event.rgb,
       Event.buzz, Event.sensor 3300 100, Event.process, Event.matrix,
       Event.disp, Event.rgb, Event.sensor 7 7, Event.disp]).trace
      = [(Who.Disp, Call.ssd1306_fill false),
         (Who.Disp, Call.ssd1306_draw_string "Chuva: 3300" 0 0),
         (Who.Disp, Call.ssd1306_draw_string "Nivel:  100" 0 10),
         (Who.Disp, Call.ssd1306_draw_string "!!! ALERTA !!!" 0 50),
         (Who.Disp, Call.ssd1306_send_data)] :=
  ⟨by decide,
   (display_coalesces_to_latest (boot default)
      [Event.sensor 100 100, Event.process, Event.rgb]
      [Event.buzz, Event.sensor 3300 100, Event.process, Event.matrix]
      [Event.rgb, Event.sensor 7 7] ⟨100, 100⟩ ⟨3300, 100⟩
      (by decide) (by decide) (by decide) (by decide) (by decide) (by decide) (by decide)).2.1,
   by decide⟩

/-- C5. From start-up, publishing (rain 100, level 100) and running one classifier
iteration leaves NORMAL in the status queue; publishing (rain 3300, level 100) and
running one more leaves ALERTA; the next RGB iteration then completes and sets the
PWM levels to R = 255, G = 0, B = 0. -/
theorem end_to_end_normal_then_alert (junk : Locals) :
    (run (boot junk) [Event.sensor 100 100, Event.process]).qStatus.items
      = [SystemStatus.NORMAL] ∧
    (run (boot junk) [Event.sensor 100 100, Event.process,
        Event.sensor 3300 100, Event.process]).qStatus.items = [SystemStatus.ALERTA] ∧
    (vTaskLedRGB_iter (run (boot junk) [Event.sensor 100 100, Event.process,
        Event.sensor 3300 100, Event.process])).isSome = true ∧
    rgbOutput (run (boot junk) [Event.sensor 100 100, Event.process,
        Event.sensor 3300 100, Event.process, Event.rgb]).trace
      = (some 255, some 0, some 0) :=
  ⟨rfl, rfl, rfl, rfl⟩


/-- C6. On a queue that was only created, a receive and a peek with portMAX_DELAY
deliver nothing and do not expire: the caller stays parked and the queue stays
empty. At start-up every task except the sensor task is parked, the sensor task
completes its iteration, and as long as the classifier has consumed no reading no
call of an actuator task (RGB, buzzer, matrix, display) is in the trace and the
PWM levels are those set by main. -/
theorem initial_state_parks_consumers (junk : Locals) (evs : List Event)
    (h : lastConsumed (boot junk) none evs = none) :
    (∀ α : Type, xQueueReceive (xQueueCreate α 1) portMAX_DELAY = QueueRead.parked ∧
      xQueuePeek (xQueueCreate α 1) portMAX_DELAY = QueueRead.parked ∧
      (xQueueCreate α 1).items = []) ∧
    (∀ e : Event, (∀ a b, e ≠ Event.sensor a b) →
      step (boot junk) e = none ∧ exec (boot junk) e = boot junk) ∧
    (∀ a b, (step (boot junk) (Event.sensor a b)).isSome = true) ∧
    actuatorCalls (run (boot junk) evs).trace = [] ∧
    rgbOutput (run (boot junk) evs).trace = (some 0, some 255, some 0) ∧
    (run (boot junk) evs).qDisplay.items = [] ∧
    (run (boot junk) evs).qStatus.items = [] := by
  have hq := run_quiet evs (boot junk) (boot_quiet junk) h
  refine ⟨fun α => ⟨rfl, rfl, rfl⟩, ?_, fun a b => rfl, hq.2.2.2.1, hq.2.2.2.2, hq.1, hq.2.1⟩
  intro e he
  cases e with
  | sensor a b => exact absurd rfl (he a b)
  | process => exact ⟨rfl, rfl⟩
  | rgb => exact ⟨rfl, rfl⟩
  | buzz => exact ⟨rfl, rfl⟩
  | matrix => exact ⟨rfl, rfl⟩
  | disp => exact ⟨rfl, rfl⟩

/-- Witness of C6: two samples and attempts of every other task except a classifier
iteration after a sample. -/
theorem initial_state_parks_consumers_witness :
    lastConsumed (boot default) none
      [Event.process, Event.rgb, Event.sensor 4000 4000, Event.buzz, Event.matrix,
       Event.disp, Event.sensor 1 2, Event.rgb] = none ∧
    actuatorCalls (run (boot default)
      [Event.process, Event.rgb, Event.sensor 4000 4000, Event.buzz, Event.matrix,
       Event.disp, Event.sensor 1 2, Event.rgb]).trace = [] :=
  ⟨by decide,
   (initial_state_parks_consumers default
      [Event.process, Event.rgb, Event.sensor 4000 4000, Event.buzz, Event.matrix,
       Event.disp, Event.sensor 1 2, Event.rgb] (by decide)).2.2.2.1⟩

/-- C7 as stated fails. After the reading rain = 0, level = 3000 has been classified,
the iteration of the buzzer task issues the timed wait `sleep_ms 200`, which is not
a `vTaskDelay` call. -/
theorem buzzer_tone_burst_is_not_vTaskDelay :
    ¬ (∀ (junk : Locals) (evs : List Event) (e : Event),
        ∀ c ∈ issued (run (boot junk) evs) e, c.2.isWait = true →
          ∃ ms, c.2 = Call.vTaskDelay ms) := by
  intro hall
  obtain ⟨ms, hms⟩ := hall default [Event.sensor 0 3000, Event.process] Event.buzz
    (Who.Buzz, Call.sleep_ms 200) (by decide) rfl
  cases hms

/-- C7 as amended. In every state, every timed wait that a step of a task issues has
one of the fixed durations of the source and is a `vTaskDelay` call (200 ms in the
sensor and RGB tasks, 500 ms and 1000 ms in the buzzer task, 300 ms in the matrix
task), except the tone burst of the buzzer task, which is the call `sleep_ms 200`.
Under ALERTA the buzzer iteration waits by `sleep_ms 200` and then `vTaskDelay 500`,
under NORMAL by `vTaskDelay 1000`; the classifier and display tasks issue no timed
wait. -/
theorem timed_waits_by_task (s : Sys) (e : Event) (c : Who × Call)
    (hc : c ∈ issued s e) (hw : c.2.isWait = true) :
    (c = (Who.Sensor, Call.vTaskDelay 200) ∨ c = (Who.RGB, Call.vTaskDelay 200) ∨
     c = (Who.Buzz, Call.vTaskDelay 500) ∨ c = (Who.Buzz, Call.vTaskDelay 1000) ∨
     c = (Who.Matrix, Call.vTaskDelay 300) ∨
     (c = (Who.Buzz, Call.sleep_ms 200) ∧ e = Event.buzz ∧
        ∃ rest, s.qStatus.items = SystemStatus.ALERTA :: rest)) ∧
    (∀ rest, s.qStatus.items = SystemStatus.ALERTA :: rest →
      waitsOf (issued s Event.buzz)
        = [(Who.Buzz, Call.sleep_ms 200), (Who.Buzz, Call.vTaskDelay 500)]) ∧
    (∀ rest, s.qStatus.items = SystemStatus.NORMAL :: rest →
      waitsOf (issued s Event.buzz) = [(Who.Buzz, Call.vTaskDelay 1000)]) ∧
    waitsOf (issued s Event.process) = [] ∧
    waitsOf (issued s Event.disp) = [] := by
  have hmem : c ∈ waitsOf (issued s e) := by
    simp only [waitsOf, List.mem_filter]
    exact ⟨hc, hw⟩
  refine ⟨?_, ?_, ?_, ?_, ?_⟩
  · rw [waitsOf_issued] at hmem
    cases e with
    | sensor a b => simp at hmem; simp [hmem]
    | process => simp at hmem
    | rgb =>
      cases hq : s.qStatus.items with
      | nil => rw [hq] at hmem; simp at hmem
      | cons st rest => rw [hq] at hmem; simp at hmem; simp [hmem]
    | buzz =>
      cases hq : s.qStatus.items with
      | nil => rw [hq] at hmem; simp at hmem
      | cons st rest =>
        rw [hq] at hmem
        cases st
        · simp at hmem; simp [hmem]
        · simp at hmem
          rcases hmem with h | h <;> simp [h]
    | matrix =>
      cases hq : s.qStatus.items with
      | nil => rw [hq] at hmem; simp at hmem
      | cons st rest => rw [hq] at hmem; simp at hmem; simp [hmem]
    | disp => simp at hmem
  · intro rest hq
    rw [waitsOf_issued]
    simp only [hq]
  · intro rest hq
    rw [waitsOf_issued]
    simp only [hq]
  · rw [waitsOf_issued]
  · rw [waitsOf_issued]

/-- Witness of the amended C7: the tone burst issued by the buzzer iteration after the
reading rain = 0, level = 3000 was classified. -/
theorem timed_waits_by_task_witness :
    ((Who.Buzz, Call.sleep_ms 200)
        ∈ issued (run (boot default) [Event.sensor 0 3000, Event.process]) Event.buzz ∧
      (Call.sleep_ms 200).isWait = true) ∧
    waitsOf (issued (run (boot default) [Event.sensor 0 3000, Event.process]) Event.buzz)
      = [(Who.Buzz, Call.sleep_ms 200), (Who.Buzz, Call.vTaskDelay 500)] :=
  ⟨by decide,
   (timed_waits_by_task (run (boot default) [Event.sensor 0 3000, Event.process]) Event.buzz
      (Who.Buzz, Call.sleep_ms 200) (by decide) rfl).2.1 [] (by decide)⟩

/-- C8. When the peek of the status queue returns st, one RGB iteration completes and
leaves the PWM levels (R, G, B) at (255, 0, 0) for ALERTA and (0, 255, 0) for
NORMAL; every level it writes is at most 255, the blue level is 0, and the NORMAL
levels are the levels that main set at start-up. -/
theorem indicator_light_mapping (s : Sys) (st : SystemStatus) (rest : List SystemStatus)
    (junk : Locals) (h : s.qStatus.items = st :: rest) :
    ∃ s1, vTaskLedRGB_iter s = some s1 ∧
      s1.trace = s.trace ++ (vTaskLedRGB_body st).map (fun c => (Who.RGB, c)) ∧
      rgbOutput s1.trace =
        (match st with
         | SystemStatus.ALERTA => (some 255, some 0, some 0)
         | SystemStatus.NORMAL => (some 0, some 255, some 0)) ∧
      (∀ g l, Call.pwm_set_gpio_level g l ∈ vTaskLedRGB_body st → l ≤ 255) ∧
      pwmLevel LED_B s1.trace = some 0 ∧
      (st = SystemStatus.NORMAL → rgbOutput s1.trace = rgbOutput (boot junk).trace) := by
  refine ⟨emit Who.RGB (vTaskLedRGB_body st)
    { s with loc := { s.loc with stRGB := st } }, ?_, rfl, ?_, ?_, ?_, ?_⟩
  · simp [vTaskLedRGB_iter, xQueuePeek, h]
  · cases st <;>
      simp [emit, rgbOutput, pwmLevel, vTaskLedRGB_body, LED_R, LED_G, LED_B, List.foldl_append]
  · cases st <;> simp [vTaskLedRGB_body] <;> omega
  · cases st <;>
      simp [emit, pwmLevel, vTaskLedRGB_body, LED_R, LED_G, LED_B, List.foldl_append]
  · intro hst
    subst hst
    simp [emit, rgbOutput, pwmLevel, vTaskLedRGB_body, LED_R, LED_G, LED_B, List.foldl_append,
      boot, mainCalls]

/-- Witness of C8 in the state reached after classifying rain = 3300, level = 100. -/
theorem indicator_light_mapping_witness :
    (run (boot default) [Event.sensor 3300 100, Event.process]).qStatus.items
      = SystemStatus.ALERTA :: [] ∧
    ∃ s1, vTaskLedRGB_iter (run (boot default) [Event.sensor 3300 100, Event.process])
        = some s1 ∧
      rgbOutput s1.trace = (some 255, some 0, some 0) := by
  refine ⟨by decide, ?_⟩
  obtain ⟨s1, h1, _, h3, _⟩ := indicator_light_mapping
    (run (boot default) [Event.sensor 3300 100, Event.process]) SystemStatus.ALERTA []
    default (by decide)
  exact ⟨s1, h1, h3⟩


/-- C9. From every valid state whose sensor queue holds r, one classifier iteration
completes and leaves the sensor queue empty, the display queue holding r unchanged
and the status queue holding classify r, whatever the display and status queues
held before; after any run from start-up the status queue holds classify of the
reading most recently consumed (and is empty while none was consumed); and from
ALERTA a reading with level < 2867 and rain < 3276 gives NORMAL in that iteration. -/
theorem classifier_has_no_memory :
    (∀ (s : Sys) (r : SensorData), s.Valid → s.qSensor.items = [r] →
      ∃ s1, vTaskProcess_iter s = some s1 ∧ s1.qSensor.items = [] ∧
        s1.qDisplay.items = [r] ∧ s1.qStatus.items = [classify r] ∧
        s1.trace = s.trace ∧ s1.loc = s.loc ∧ s1.dispPc = s.dispPc) ∧
    (∀ (junk : Locals) (evs : List Event),
      (run (boot junk) evs).qStatus.items
        = statusFor (lastConsumed (boot junk) none evs)) ∧
    (∀ (s : Sys) (r : SensorData), s.Valid → s.qSensor.items = [r] →
      s.qStatus.items = [SystemStatus.ALERTA] → r.level < 2867 → r.rain < 3276 →
      ∃ s1, vTaskProcess_iter s = some s1 ∧ s1.qStatus.items = [SystemStatus.NORMAL]) := by
  have key : ∀ (s : Sys) (r : SensorData), s.Valid → s.qSensor.items = [r] →
      ∃ s1, vTaskProcess_iter s = some s1 ∧ s1.qSensor.items = [] ∧
        s1.qDisplay.items = [r] ∧ s1.qStatus.items = [classify r] ∧
        s1.trace = s.trace ∧ s1.loc = s.loc ∧ s1.dispPc = s.dispPc := by
    intro s r hs hr
    obtain ⟨_, h2, h3⟩ := hs
    refine ⟨{ s with qSensor := { s.qSensor with items := [] }
                     qDisplay := xQueueOverwrite s.qDisplay r
                     qStatus := xQueueOverwrite s.qStatus (classify r) }, ?_, rfl,
      (xQueueOverwrite_valid _ _ h2).2, (xQueueOverwrite_valid _ _ h3).2, rfl, rfl, rfl⟩
    simp [vTaskProcess_iter, xQueueReceive, hr]
  refine ⟨key, fun junk evs => run_status_tracks evs (boot junk) none (boot_valid junk) rfl, ?_⟩
  intro s r hs hr _ hl hn
  obtain ⟨s1, h1, _, _, h4, _⟩ := key s r hs hr
  refine ⟨s1, h1, ?_⟩
  rw [h4]
  have : classify r = SystemStatus.NORMAL := by
    unfold classify LEVEL_ALERT_TH RAIN_ALERT_TH
    rw [if_neg]
    omega
  rw [this]

/-- Witness of C9: after ALERTA from (rain 0, level 3000), the reading (rain 10,
level 20) is classified NORMAL at once. -/
theorem classifier_has_no_memory_witness :
    ((run (boot default) [Event.sensor 0 3000, Event.process, Event.sensor 10 20]).Valid ∧
     (run (boot default) [Event.sensor 0 3000, Event.process, Event.sensor 10 20]).qSensor.items
        = [⟨10, 20⟩] ∧
     (run (boot default) [Event.sensor 0 3000, Event.process, Event.sensor 10 20]).qStatus.items
        = [SystemStatus.ALERTA] ∧ 20 < 2867 ∧ 10 < 3276) ∧
    ∃ s1, vTaskProcess_iter
        (run (boot default) [Event.sensor 0 3000, Event.process, Event.sensor 10 20]) = some s1 ∧
      s1.qStatus.items = [SystemStatus.NORMAL] :=
  ⟨by decide,
   classifier_has_no_memory.2.2
     (run (boot default) [Event.sensor 0 3000, Event.process, Event.sensor 10 20]) ⟨10, 20⟩
     (by decide) (by decide) (by decide) (by decide) (by decide)⟩

/-- C10 as stated fails. With classifier iterations indivisible, the display task
receives the reading (0, 0), whose status is NORMAL; the classifier then handles
(4000, 0); the display task then peeks ALERTA and draws rain 0 and level 0 under the
ALERTA banner. So not every frame carries the banner of the reading it shows. -/
theorem display_can_show_stale_banner :
    ¬ (∀ (junk : Locals) (evs : List Event) (s1 : Sys),
        (run (boot junk) evs).dispPc = DispPc.atPeek →
        step (run (boot junk) evs) Event.disp = some s1 →
        s1.trace = (run (boot junk) evs).trace
          ++ (vTaskDisplay_body (run (boot junk) evs).loc.sdDisp
                (classify (run (boot junk) evs).loc.sdDisp)).map (fun c => (Who.Disp, c))) := by
  intro hall
  have h := hall default
    [Event.sensor 0 0, Event.process, Event.disp, Event.sensor 4000 0, Event.process]
    (exec (run (boot default)
      [Event.sensor 0 0, Event.process, Event.disp, Event.sensor 4000 0, Event.process])
      Event.disp) (by decide) (by decide)
  revert h
  decide

/-- C10 as amended. With classifier iterations indivisible, in every state reached
from start-up in which the display queue holds r the status queue holds classify r,
wherever the display task stands. Hence, for every receive of the display task and
every sequence of steps of the other tasks that follows it in which the classifier
consumes no reading, the peek of the display task returns and the frame drawn is
fill, the rain line and the level line of the reading r that was received (texts that
show the numbers r.rain and r.level), the ALERTA banner exactly when
r.level >= 2867 or r.rain >= 3276 and the NORMAL banner otherwise, and send. -/
theorem display_banner_matches_without_reclassification (junk : Locals)
    (evs mid : List Event) :
    (∀ r, (run (boot junk) evs).qDisplay.items = [r] →
      (run (boot junk) evs).qStatus.items = [classify r]) ∧
    (∀ s3, (run (boot junk) evs).dispPc = DispPc.atReceive →
      step (run (boot junk) evs) Event.disp = some s3 →
      Event.disp ∉ mid → lastConsumed s3 none mid = none →
      (run (boot junk) evs).qDisplay.items = [s3.loc.sdDisp] ∧
      ∃ s4, step (run s3 mid) Event.disp = some s4 ∧
        s4.trace = (run s3 mid).trace ++
          [(Who.Disp, Call.ssd1306_fill false),
           (Who.Disp, Call.ssd1306_draw_string ("Chuva: " ++ fmt4u s3.loc.sdDisp.rain) 0 0),
           (Who.Disp, Call.ssd1306_draw_string ("Nivel: " ++ fmt4u s3.loc.sdDisp.level) 0 10),
           (Who.Disp, Call.ssd1306_draw_string
              (if s3.loc.sdDisp.level ≥ 2867 ∨ s3.loc.sdDisp.rain ≥ 3276
               then "!!! ALERTA !!!" else "   NORMAL    ") 0 50),
           (Who.Disp, Call.ssd1306_send_data)] ∧
        shownNumber ("Chuva: " ++ fmt4u s3.loc.sdDisp.rain) = s3.loc.sdDisp.rain ∧
        shownNumber ("Nivel: " ++ fmt4u s3.loc.sdDisp.level) = s3.loc.sdDisp.level) := by
  have hv := run_valid evs (boot junk) (boot_valid junk)
  have hco := run_coherent evs (boot junk) (boot_valid junk) (boot_coherent junk)
  refine ⟨hco, ?_⟩
  intro s3 hpc hstep hdm hnone
  obtain ⟨g1, _, g3, g4, _, g6⟩ := receive_step _ s3 hv hpc hstep
  have hq3 : s3.qStatus.items = statusFor (some s3.loc.sdDisp) := by
    rw [g3]; exact hco _ g1
  have htrack := run_status_tracks mid s3 (some s3.loc.sdDisp) g6 hq3
  rw [lastConsumed_of_none mid s3 _ hnone] at htrack
  have ndM := run_nondisp mid s3 hdm
  obtain ⟨s4, k1, k2, _, _⟩ := render_step (run s3 mid) (classify s3.loc.sdDisp)
    (by rw [ndM.1, g4]) htrack
  refine ⟨g1, s4, k1, ?_, shownNumber_fmt4u _ _ (by decide), shownNumber_fmt4u _ _ (by decide)⟩
  rw [k2, ndM.2.1]
  congr 1
  unfold classify LEVEL_ALERT_TH RAIN_ALERT_TH
  by_cases h : s3.loc.sdDisp.level ≥ 2867 ∨ s3.loc.sdDisp.rain ≥ 3276 <;>
    simp [vTaskDisplay_body, h]

/-- Witness of the amended C10: the display task receives (4000, 0); the RGB task and
two samples follow with no classifier iteration; the frame shows 4000 and 0 under the
ALERTA banner. -/
theorem display_banner_matches_without_reclassification_witness :
    ((run (boot default) [Event.sensor 4000 0, Event.process]).dispPc = DispPc.atReceive ∧
     step (run (boot default) [Event.sensor 4000 0, Event.process]) Event.disp
       = some (run (boot default) [Event.sensor 4000 0, Event.process, Event.disp]) ∧
     Event.disp ∉ [Event.rgb, Event.sensor 1 1, Event.buzz, Event.sensor 2 2] ∧
     lastConsumed (run (boot default) [Event.sensor 4000 0, Event.process, Event.disp]) none
       [Event.rgb, Event.sensor 1 1, Event.buzz, Event.sensor 2 2] = none) ∧
    (run (boot default) [Event.sensor 4000 0, Event.process]).qDisplay.items
      = [(run (boot default) [Event.sensor 4000 0, Event.process, Event.disp]).loc.sdDisp] ∧
    callsOf Who.Disp (run (boot default)
      [Event.sensor 4000 0, Event.process, Event.disp,
       Event.rgb, Event.sensor 1 1, Event.buzz, Event.sensor 2 2, Event.disp]).trace
      = [(Who.Disp, Call.ssd1306_fill false),
         (Who.Disp, Call.ssd1306_draw_string "Chuva: 4000" 0 0),
         (Who.Disp, Call.ssd1306_draw_string "Nivel:    0" 0 10),
         (Who.Disp, Call.ssd1306_draw_string "!!! ALERTA !!!" 0 50),
         (Who.Disp, Call.ssd1306_send_data)] :=
  ⟨by decide,
   ((display_banner_matches_without_reclassification default
      [Event.sensor 4000 0, Event.process]
      [Event.rgb, Event.sensor 1 1, Event.buzz, Event.sensor 2 2]).2
      (run (boot default) [Event.sensor 4000 0, Event.process, Event.disp])
      (by decide) (by decide) (by decide) (by decide)).1,
   by decide⟩

end Tarefa6
